import Mathlib

/-!
Shallow embedding of the ClawOps background fleet health monitor
(`HealthMonitorService` in `src/plugin/openclaw-clawops/src/tools/pair-status.ts`,
together with the `FleetStatusResult` shape from
`src/plugin/src/tools/fleet-status.ts`).

Conventions of the embedding:
* TypeScript numbers standing for scores / dollar amounts / percentages are
  modelled as `Rat`; instance counts are `Nat`.
* `Date` values (the `now` of a sweep and the suppression expiries stored in
  the two `Map<string, Date>` ledgers) are modelled as `Nat` milliseconds.
  JavaScript `Map` objects are modelled as association lists with JS `Map`
  semantics (`set` replaces in place, `delete` removes, iteration in
  insertion order).
* The human-readable `message` strings interpolated into each event payload
  are presentation-only and are not modelled; the structured fields of each
  payload are kept.
* The `eventId` strings (`evt-${Date.now()}-...`) are kept, using the sweep's
  `now` for `Date.now()`.
-/

namespace ClawOps

/-- Severity of an entry of `FleetStatusResult.alerts`. -/
inductive Severity where
  | info
  | warning
  | critical
  deriving Repr, DecidableEq

/-- One entry of `FleetStatusResult.alerts` (instanceId omitted, optional). -/
structure Alert where
  severity : Severity
  message : String
  deriving Repr, DecidableEq

/-- Per-provider summary from `FleetStatusResult.byProvider` (the fields the
monitor reads; `avgProvisionTimeSecs` and `monthlyCostUsd` are unused by the
monitor and omitted). -/
structure ProviderSummary where
  total : Nat
  active : Nat
  degraded : Nat
  failed : Nat
  healthScore : Rat
  deriving Repr, DecidableEq

/-- The cost block of `FleetStatusResult` (the fields the monitor reads). -/
structure CostSummary where
  monthlyActualUsd : Rat
  monthlyProjectedUsd : Rat
  deviationPct : Rat
  deriving Repr, DecidableEq

/-- The fleet-status snapshot consumed by the monitor: the fields of
`FleetStatusResult` that `HealthMonitorService` reads. `byProvider` is the
provider map in iteration (insertion) order, as `Object.entries` yields it. -/
structure FleetStatusResult where
  totalInstances : Nat
  degradedInstances : Nat
  failedInstances : Nat
  bootstrappingInstances : Nat
  byProvider : List (String × ProviderSummary)
  cost : CostSummary
  alerts : List Alert
  deriving Repr, DecidableEq

/-- Type `MonitorEventType` from the source (all eight declared values). -/
inductive MonitorEventType where
  | INSTANCE_DEGRADED
  | INSTANCE_FAILED
  | PAIR_FAILED
  | COST_ANOMALY
  | PROVISION_QUEUE_BACKLOG
  | PROVIDER_DEGRADED
  | FLEET_RECOVERING
  | FLEET_HEALTHY
  deriving Repr, DecidableEq

/-- Event priority tiers. -/
inductive Priority where
  | low
  | medium
  | high
  | critical
  deriving Repr, DecidableEq

/-- The target-agent identifiers of `MonitorEvent.targetAgent`. -/
inductive TargetAgent where
  | guardian
  | ledger
  | forge
  | commander
  deriving Repr, DecidableEq

/-- The structured contents of each produced event's `payload` record
(the `message` string is presentation-only and omitted). -/
inductive Payload where
  | degradedPayload (degradedCount : Nat) (failedCount : Nat)
      (byProvider : List (String × ProviderSummary))
  | pairFailedPayload (failedCount : Nat) (alerts : List Alert)
  | costPayload (actualUsd : Rat) (projectedUsd : Rat) (deviationPct : Rat)
      (direction : String)
  | queuePayload (queueDepth : Nat) (bootstrappingInstances : Nat)
  | providerPayload (provider : String) (healthScore : Rat)
      (activeInstances : Nat) (degradedInstances : Nat)
  | recoveryPayload (previousFailed : Nat) (previousDegraded : Nat)
  deriving Repr, DecidableEq

/-- Structure `MonitorEvent` from the source. Timestamps are `Nat` milliseconds. -/
structure MonitorEvent where
  eventId : String
  type : MonitorEventType
  priority : Priority
  timestamp : Nat
  targetAgent : TargetAgent
  payload : Payload
  suppressUntil : Option Nat := none
  deriving Repr, DecidableEq

/-- Structure `MonitorThresholds` from the source. -/
structure MonitorThresholds where
  instanceDegradedScore : Rat
  costAnomalyPct : Rat
  provisionQueueDepth : Nat
  providerDegradedScore : Rat
  degradedSuppressionMins : Nat
  deriving Repr, DecidableEq

/-- Constant `DEFAULT_THRESHOLDS` from the source. -/
def DEFAULT_THRESHOLDS : MonitorThresholds :=
  { instanceDegradedScore := 50
    costAnomalyPct := 15
    provisionQueueDepth := 20
    providerDegradedScore := 75
    degradedSuppressionMins := 30 }

/-- JS `Map.get`: the value stored at `k`, if present. -/
def mapGet (m : List (String × Nat)) (k : String) : Option Nat :=
  match m.find? (fun p => p.1 == k) with
  | some p => some p.2
  | none => none

/-- JS `Map.set`: replace the binding for `k` in place if present, else append. -/
def mapSet (m : List (String × Nat)) (k : String) (v : Nat) : List (String × Nat) :=
  if m.any (fun p => p.1 == k) then
    m.map (fun p => if p.1 == k then (k, v) else p)
  else
    m ++ [(k, v)]

/-- JS `Map.delete`: remove the binding for `k`. -/
def mapDelete (m : List (String × Nat)) (k : String) : List (String × Nat) :=
  m.filter (fun p => !(p.1 == k))

/-- The mutable fields of `HealthMonitorService` that a sweep reads and
writes: the two suppression ledgers and the last-known snapshot. -/
structure MonitorState where
  suppressedInstances : List (String × Nat)
  suppressedProviders : List (String × Nat)
  lastKnownState : Option FleetStatusResult
  deriving Repr, DecidableEq

/-- The state of a freshly constructed monitor: both ledgers empty and no
last-known snapshot. -/
def initialState : MonitorState :=
  { suppressedInstances := [], suppressedProviders := [], lastKnownState := none }

-- ─── Check functions ─────────────────────────────────────────────────────────

/-- The aggregate `INSTANCE_DEGRADED` event built in `checkInstanceHealth`. -/
def degradedEvent (th : MonitorThresholds) (fleet : FleetStatusResult)
    (now : Nat) : MonitorEvent :=
  { eventId := "evt-" ++ toString now ++ "-degraded"
    type := .INSTANCE_DEGRADED
    priority := if 10 < fleet.degradedInstances then .high else .medium
    timestamp := now
    targetAgent := .guardian
    payload := .degradedPayload fleet.degradedInstances fleet.failedInstances
      fleet.byProvider
    suppressUntil := some (now + th.degradedSuppressionMins * 60000) }

/-- The `PAIR_FAILED` event built in `checkInstanceHealth`. -/
def pairFailedEvent (fleet : FleetStatusResult) (now : Nat) : MonitorEvent :=
  { eventId := "evt-" ++ toString now ++ "-failed"
    type := .PAIR_FAILED
    priority := .critical
    timestamp := now
    targetAgent := .guardian
    payload := .pairFailedPayload fleet.failedInstances
      (fleet.alerts.filter (fun a => a.severity == .critical))
    suppressUntil := none }

/-- The `!suppressedUntil || now > suppressedUntil` test on the aggregate
`'fleet-degraded'` key (a `Date` object is always truthy, so `!suppressedUntil`
is exactly "key absent"). -/
def degradedNotSuppressed (m : List (String × Nat)) (now : Nat) : Bool :=
  match mapGet m "fleet-degraded" with
  | none => true
  | some u => decide (u < now)

/-- Method `HealthMonitorService.checkInstanceHealth`, as a function of the
thresholds, the snapshot, the `suppressedInstances` ledger and the sweep time.
Returns the produced events (degraded event first, then the pair-failed event,
in push order) and the updated `suppressedInstances` ledger. -/
def checkInstanceHealth (th : MonitorThresholds) (fleet : FleetStatusResult)
    (m : List (String × Nat)) (now : Nat) :
    List MonitorEvent × List (String × Nat) :=
  let suppressionMs := th.degradedSuppressionMins * 60000
  let deg :=
    if 0 < fleet.degradedInstances then
      if degradedNotSuppressed m now then
        ([degradedEvent th fleet now],
         mapSet m "fleet-degraded" (now + suppressionMs))
      else
        ([], m)
    else
      ([], m)
  let failEvents :=
    if 0 < fleet.failedInstances then [pairFailedEvent fleet now] else []
  (deg.1 ++ failEvents, deg.2)

/-- The `COST_ANOMALY` event built in `checkCostAnomaly`. -/
def costEvent (fleet : FleetStatusResult) (now : Nat) : MonitorEvent :=
  { eventId := "evt-" ++ toString now ++ "-cost"
    type := .COST_ANOMALY
    priority := if 25 < |fleet.cost.deviationPct| then .high else .medium
    timestamp := now
    targetAgent := .ledger
    payload := .costPayload fleet.cost.monthlyActualUsd
      fleet.cost.monthlyProjectedUsd fleet.cost.deviationPct
      (if 0 < fleet.cost.deviationPct then "over" else "under")
    suppressUntil := none }

/-- Method `HealthMonitorService.checkCostAnomaly`. -/
def checkCostAnomaly (th : MonitorThresholds) (fleet : FleetStatusResult)
    (now : Nat) : Option MonitorEvent :=
  if th.costAnomalyPct ≤ |fleet.cost.deviationPct| then
    some (costEvent fleet now)
  else
    none

/-- The `PROVISION_QUEUE_BACKLOG` event built in `checkProvisionQueue`. -/
def queueEvent (fleet : FleetStatusResult) (now : Nat) : MonitorEvent :=
  { eventId := "evt-" ++ toString now ++ "-queue"
    type := .PROVISION_QUEUE_BACKLOG
    priority := if 50 < fleet.bootstrappingInstances then .high else .medium
    timestamp := now
    targetAgent := .forge
    payload := .queuePayload fleet.bootstrappingInstances
      fleet.bootstrappingInstances
    suppressUntil := none }

/-- Method `HealthMonitorService.checkProvisionQueue`
(`queueDepth = fleet.bootstrappingInstances`). -/
def checkProvisionQueue (th : MonitorThresholds) (fleet : FleetStatusResult)
    (now : Nat) : Option MonitorEvent :=
  if th.provisionQueueDepth ≤ fleet.bootstrappingInstances then
    some (queueEvent fleet now)
  else
    none

/-- The `PROVIDER_DEGRADED` event built in `checkProviderHealth`. -/
def providerEvent (provider : String) (summary : ProviderSummary)
    (now suppressionMs : Nat) : MonitorEvent :=
  { eventId := "evt-" ++ toString now ++ "-provider-" ++ provider
    type := .PROVIDER_DEGRADED
    priority := if summary.healthScore < 50 then .critical else .high
    timestamp := now
    targetAgent := .commander
    payload := .providerPayload provider summary.healthScore summary.active
      summary.degraded
    suppressUntil := some (now + suppressionMs) }

/-- The `!suppressedUntil || now > suppressedUntil` test on a provider key. -/
def providerNotSuppressed (m : List (String × Nat)) (provider : String)
    (now : Nat) : Bool :=
  match mapGet m provider with
  | none => true
  | some u => decide (u < now)

/-- The `for (const [provider, summary] of Object.entries(fleet.byProvider))`
loop of `checkProviderHealth`, threading the `suppressedProviders` ledger. -/
def providerLoop (th : MonitorThresholds) (now suppressionMs : Nat) :
    List (String × ProviderSummary) → List (String × Nat) →
    List MonitorEvent × List (String × Nat)
  | [], m => ([], m)
  | (provider, summary) :: rest, m =>
    if summary.healthScore < th.providerDegradedScore then
      if providerNotSuppressed m provider now then
        let r := providerLoop th now suppressionMs rest
          (mapSet m provider (now + suppressionMs))
        (providerEvent provider summary now suppressionMs :: r.1, r.2)
      else
        providerLoop th now suppressionMs rest m
    else
      -- Clear suppression when provider recovers
      providerLoop th now suppressionMs rest (mapDelete m provider)

/-- Method `HealthMonitorService.checkProviderHealth`
(`suppressionMs = 60 * 60_000`, one hour). -/
def checkProviderHealth (th : MonitorThresholds) (fleet : FleetStatusResult)
    (m : List (String × Nat)) (now : Nat) :
    List MonitorEvent × List (String × Nat) :=
  providerLoop th now (60 * 60000) fleet.byProvider m

/-- The `FLEET_RECOVERING` event built in `checkFleetRecovery`. -/
def recoveryEvent (prev : FleetStatusResult) (now : Nat) : MonitorEvent :=
  { eventId := "evt-" ++ toString now ++ "-recovery"
    type := .FLEET_RECOVERING
    priority := .low
    timestamp := now
    targetAgent := .commander
    payload := .recoveryPayload prev.failedInstances prev.degradedInstances
    suppressUntil := none }

/-- Method `HealthMonitorService.checkFleetRecovery`. -/
def checkFleetRecovery (lastKnownState : Option FleetStatusResult)
    (fleet : FleetStatusResult) (now : Nat) : Option MonitorEvent :=
  match lastKnownState with
  | some prev =>
    if (0 < prev.failedInstances ∨ 0 < prev.degradedInstances) ∧
        fleet.failedInstances = 0 ∧ fleet.degradedInstances = 0 then
      some (recoveryEvent prev now)
    else
      none
  | none => none

-- ─── The sweep ───────────────────────────────────────────────────────────────

/-- The body of `HealthMonitorService.runSweep` after a successful fetch: the
five checks in source order, the produced events in push order, the two
ledgers updated by their respective checks, and `lastKnownState` overwritten
with the fetched snapshot. -/
def runSweepBody (th : MonitorThresholds) (fleet : FleetStatusResult)
    (s : MonitorState) (now : Nat) : List MonitorEvent × MonitorState :=
  let inst := checkInstanceHealth th fleet s.suppressedInstances now
  let prov := checkProviderHealth th fleet s.suppressedProviders now
  (inst.1 ++ (checkCostAnomaly th fleet now).toList ++
     (checkProvisionQueue th fleet now).toList ++ prov.1 ++
     (checkFleetRecovery s.lastKnownState fleet now).toList,
   { suppressedInstances := inst.2
     suppressedProviders := prov.2
     lastKnownState := some fleet })

/-- Method `HealthMonitorService.runSweep`: the fetch outcome is passed in
explicitly. On fetch failure the source logs and `return`s before any check
runs and before `lastKnownState` is overwritten, so the sweep yields no
events and leaves the state untouched. -/
def runSweep (th : MonitorThresholds) (fetch : Except String FleetStatusResult)
    (s : MonitorState) (now : Nat) : List MonitorEvent × MonitorState :=
  match fetch with
  | .error _ => ([], s)
  | .ok fleet => runSweepBody th fleet s now

/-- A failure injected at position `i` of the sweep body, modelling a thrown
exception inside the `i`-th check. -/
def throwAt (failing : Option Nat) (i : Nat) : Except String Unit :=
  if failing = some i then .error "rule evaluation threw" else .ok ()

/-- The sweep body with the source's exception behaviour made explicit: in
`runSweep` the five checks are invoked in a straight line with no try/catch
around any individual check (the only catch sits around the whole sweep, in
`start`), so an exception raised inside one check propagates and the
remaining checks never run. `failing` selects which check (if any) raises. -/
def runSweepBodyExc (failing : Option Nat) (th : MonitorThresholds)
    (fleet : FleetStatusResult) (s : MonitorState) (now : Nat) :
    Except String (List MonitorEvent × MonitorState) := do
  throwAt failing 0
  let inst := checkInstanceHealth th fleet s.suppressedInstances now
  throwAt failing 1
  let costEvents := (checkCostAnomaly th fleet now).toList
  throwAt failing 2
  let queueEvents := (checkProvisionQueue th fleet now).toList
  throwAt failing 3
  let prov := checkProviderHealth th fleet s.suppressedProviders now
  throwAt failing 4
  let recEvents := (checkFleetRecovery s.lastKnownState fleet now).toList
  pure (inst.1 ++ costEvents ++ queueEvents ++ prov.1 ++ recEvents,
    { suppressedInstances := inst.2
      suppressedProviders := prov.2
      lastKnownState := some fleet })

-- ─── Event dispatch ──────────────────────────────────────────────────────────

/-- The session-id fields of `ClawOpsConfig` that the dispatcher reads
(each `string | undefined` in the source). -/
structure ClawOpsConfig where
  guardianSessionId : Option String
  ledgerSessionId : Option String
  commanderSessionId : Option String
  deriving Repr, DecidableEq

/-- Method `HealthMonitorService.getSessionId`: the static target→address lookup.
`forge` has no session by design (spawned on demand). -/
def getSessionId (cfg : ClawOpsConfig) : TargetAgent → Option String
  | .guardian => cfg.guardianSessionId
  | .ledger => cfg.ledgerSessionId
  | .commander => cfg.commanderSessionId
  | .forge => none

/-- Outcome of one dispatch attempt: either the event was logged and dropped
because no session id resolved, or a single best-effort post to the resolved
session was attempted (its success or failure recorded but, as in the
source's `.catch(() => {})`, never propagated). -/
inductive DispatchOutcome where
  | droppedNoSession
  | posted (sessionId : String) (delivered : Bool)
  deriving Repr, DecidableEq

/-- Method `HealthMonitorService.emitEvent`. Here `post` models the external HTTP
delivery (`true` = 2xx, `false` = any network/timeout/HTTP failure, which the
source swallows). The function is total: dispatching never throws. -/
def emitEvent (cfg : ClawOpsConfig) (post : String → Bool)
    (event : MonitorEvent) : DispatchOutcome :=
  match getSessionId cfg event.targetAgent with
  | none => .droppedNoSession
  | some sessionId => .posted sessionId (post sessionId)

-- ─── Concrete fixtures ───────────────────────────────────────────────────────

/-- A fully healthy snapshot with all counts zero and no providers. -/
def baseFleet : FleetStatusResult :=
  { totalInstances := 0
    degradedInstances := 0
    failedInstances := 0
    bootstrappingInstances := 0
    byProvider := []
    cost := { monthlyActualUsd := 0, monthlyProjectedUsd := 0, deviationPct := 0 }
    alerts := [] }

/-- A snapshot with three degraded instances and nothing else amiss. -/
def degFleet3 : FleetStatusResult :=
  { baseFleet with totalInstances := 3, degradedInstances := 3 }

/-- A snapshot with two failed instances and a mixed alert list. -/
def failFleet : FleetStatusResult :=
  { baseFleet with
      totalInstances := 2
      failedInstances := 2
      alerts := [{ severity := .critical, message := "pair down" },
                 { severity := .info, message := "note" }] }

/-- A snapshot with 25 bootstrapping instances (above the default queue-depth
ceiling of 20) and nothing else amiss. -/
def queueFleet25 : FleetStatusResult :=
  { baseFleet with bootstrappingInstances := 25 }

/-- A one-instance provider summary with the given health score. -/
def provSummary (score : Rat) : ProviderSummary :=
  { total := 1, active := 1, degraded := 0, failed := 0, healthScore := score }

/-- A snapshot whose only noteworthy content is a single provider with the
given health score. -/
def provFleet (p : String) (score : Rat) : FleetStatusResult :=
  { baseFleet with byProvider := [(p, provSummary score)] }

-- ─── Helper lemmas ───────────────────────────────────────────────────────────

theorem sweep_events (th : MonitorThresholds) (fleet : FleetStatusResult)
    (s : MonitorState) (now : Nat) :
    (runSweepBody th fleet s now).1 =
      (checkInstanceHealth th fleet s.suppressedInstances now).1 ++
      (checkCostAnomaly th fleet now).toList ++
      (checkProvisionQueue th fleet now).toList ++
      (checkProviderHealth th fleet s.suppressedProviders now).1 ++
      (checkFleetRecovery s.lastKnownState fleet now).toList := rfl

theorem sweep_state (th : MonitorThresholds) (fleet : FleetStatusResult)
    (s : MonitorState) (now : Nat) :
    (runSweepBody th fleet s now).2 =
      { suppressedInstances := (checkInstanceHealth th fleet s.suppressedInstances now).2
        suppressedProviders := (checkProviderHealth th fleet s.suppressedProviders now).2
        lastKnownState := some fleet } := rfl

theorem checkInstanceHealth_fst (th : MonitorThresholds) (fleet : FleetStatusResult)
    (m : List (String × Nat)) (now : Nat) :
    (checkInstanceHealth th fleet m now).1 =
      (if 0 < fleet.degradedInstances then
        (if degradedNotSuppressed m now then [degradedEvent th fleet now] else [])
       else []) ++
      (if 0 < fleet.failedInstances then [pairFailedEvent fleet now] else []) := by
  unfold checkInstanceHealth
  split <;> [split <;> rfl; rfl]

theorem checkInstanceHealth_snd (th : MonitorThresholds) (fleet : FleetStatusResult)
    (m : List (String × Nat)) (now : Nat) :
    (checkInstanceHealth th fleet m now).2 =
      if 0 < fleet.degradedInstances then
        (if degradedNotSuppressed m now then
          mapSet m "fleet-degraded" (now + th.degradedSuppressionMins * 60000)
         else m)
      else m := by
  unfold checkInstanceHealth
  split <;> [split <;> rfl; rfl]

theorem checkInstanceHealth_mem (th : MonitorThresholds) (fleet : FleetStatusResult)
    (m : List (String × Nat)) (now : Nat) (e : MonitorEvent)
    (h : e ∈ (checkInstanceHealth th fleet m now).1) :
    e = degradedEvent th fleet now ∨ e = pairFailedEvent fleet now := by
  rw [checkInstanceHealth_fst] at h
  rcases List.mem_append.mp h with h | h
  · left
    split at h <;> [skip; simp at h]
    split at h <;> simp_all
  · right
    split at h <;> simp_all

theorem checkCostAnomaly_mem (th : MonitorThresholds) (fleet : FleetStatusResult)
    (now : Nat) (e : MonitorEvent)
    (h : e ∈ (checkCostAnomaly th fleet now).toList) : e = costEvent fleet now := by
  unfold checkCostAnomaly at h
  split at h <;> simp_all

theorem checkProvisionQueue_mem (th : MonitorThresholds) (fleet : FleetStatusResult)
    (now : Nat) (e : MonitorEvent)
    (h : e ∈ (checkProvisionQueue th fleet now).toList) : e = queueEvent fleet now := by
  unfold checkProvisionQueue at h
  split at h <;> simp_all

theorem checkFleetRecovery_mem (last : Option FleetStatusResult)
    (fleet : FleetStatusResult) (now : Nat) (e : MonitorEvent)
    (h : e ∈ (checkFleetRecovery last fleet now).toList) :
    ∃ prev, last = some prev ∧ e = recoveryEvent prev now := by
  unfold checkFleetRecovery at h
  match last with
  | none => simp at h
  | some prev =>
    refine ⟨prev, rfl, ?_⟩
    split at h <;> simp_all

theorem providerLoop_mem (th : MonitorThresholds) (now sm : Nat) :
    ∀ (l : List (String × ProviderSummary)) (m : List (String × Nat))
      (e : MonitorEvent), e ∈ (providerLoop th now sm l m).1 →
      ∃ p summary, (p, summary) ∈ l ∧ e = providerEvent p summary now sm
  | [], m, e, h => by simp [providerLoop] at h
  | (provider, summary) :: rest, m, e, h => by
    rw [providerLoop] at h
    split at h
    · split at h
      · rcases List.mem_cons.mp h with h | h
        · exact ⟨provider, summary, List.mem_cons_self .., h⟩
        · obtain ⟨p, su, hmem, he⟩ := providerLoop_mem th now sm rest _ e h
          exact ⟨p, su, List.mem_cons_of_mem _ hmem, he⟩
      · obtain ⟨p, su, hmem, he⟩ := providerLoop_mem th now sm rest _ e h
        exact ⟨p, su, List.mem_cons_of_mem _ hmem, he⟩
    · obtain ⟨p, su, hmem, he⟩ := providerLoop_mem th now sm rest _ e h
      exact ⟨p, su, List.mem_cons_of_mem _ hmem, he⟩

theorem checkProviderHealth_mem (th : MonitorThresholds) (fleet : FleetStatusResult)
    (m : List (String × Nat)) (now : Nat) (e : MonitorEvent)
    (h : e ∈ (checkProviderHealth th fleet m now).1) :
    ∃ p summary, (p, summary) ∈ fleet.byProvider ∧
      e = providerEvent p summary now (60 * 60000) :=
  providerLoop_mem th now (60 * 60000) fleet.byProvider m e h

theorem filter_type_nil {l : List MonitorEvent} {t : MonitorEventType}
    (h : ∀ e ∈ l, e.type ≠ t) :
    l.filter (fun e => e.type == t) = [] :=
  List.filter_eq_nil_iff.mpr (by intro e he; simpa using h e he)

theorem cost_toList_filter_ne (th : MonitorThresholds) (fleet : FleetStatusResult)
    (now : Nat) (t : MonitorEventType) (ht : t ≠ .COST_ANOMALY) :
    (checkCostAnomaly th fleet now).toList.filter (fun e => e.type == t) = [] :=
  filter_type_nil fun e he => by
    rw [checkCostAnomaly_mem th fleet now e he]
    exact fun h => ht h.symm

theorem queue_toList_filter_ne (th : MonitorThresholds) (fleet : FleetStatusResult)
    (now : Nat) (t : MonitorEventType) (ht : t ≠ .PROVISION_QUEUE_BACKLOG) :
    (checkProvisionQueue th fleet now).toList.filter (fun e => e.type == t) = [] :=
  filter_type_nil fun e he => by
    rw [checkProvisionQueue_mem th fleet now e he]
    exact fun h => ht h.symm

theorem rec_toList_filter_ne (last : Option FleetStatusResult)
    (fleet : FleetStatusResult) (now : Nat) (t : MonitorEventType)
    (ht : t ≠ .FLEET_RECOVERING) :
    (checkFleetRecovery last fleet now).toList.filter (fun e => e.type == t) = [] :=
  filter_type_nil fun e he => by
    obtain ⟨prev, _, he⟩ := checkFleetRecovery_mem last fleet now e he
    rw [he]
    exact fun h => ht h.symm

theorem prov_filter_ne (th : MonitorThresholds) (fleet : FleetStatusResult)
    (m : List (String × Nat)) (now : Nat) (t : MonitorEventType)
    (ht : t ≠ .PROVIDER_DEGRADED) :
    (checkProviderHealth th fleet m now).1.filter (fun e => e.type == t) = [] :=
  filter_type_nil fun e he => by
    obtain ⟨p, summary, _, he⟩ := checkProviderHealth_mem th fleet m now e he
    rw [he]
    exact fun h => ht h.symm

theorem inst_filter_ne (th : MonitorThresholds) (fleet : FleetStatusResult)
    (m : List (String × Nat)) (now : Nat) (t : MonitorEventType)
    (ht1 : t ≠ .INSTANCE_DEGRADED) (ht2 : t ≠ .PAIR_FAILED) :
    (checkInstanceHealth th fleet m now).1.filter (fun e => e.type == t) = [] :=
  filter_type_nil fun e he => by
    rcases checkInstanceHealth_mem th fleet m now e he with he | he <;> rw [he]
    · exact fun h => ht1 h.symm
    · exact fun h => ht2 h.symm

theorem checkInstanceHealth_filter_deg (th : MonitorThresholds)
    (fleet : FleetStatusResult) (m : List (String × Nat)) (now : Nat) :
    (checkInstanceHealth th fleet m now).1.filter
        (fun e => e.type == .INSTANCE_DEGRADED) =
      if 0 < fleet.degradedInstances then
        (if degradedNotSuppressed m now then [degradedEvent th fleet now] else [])
      else [] := by
  rw [checkInstanceHealth_fst]
  simp only [List.filter_append]
  split_ifs <;> simp [degradedEvent, pairFailedEvent]

theorem checkInstanceHealth_filter_pair (th : MonitorThresholds)
    (fleet : FleetStatusResult) (m : List (String × Nat)) (now : Nat) :
    (checkInstanceHealth th fleet m now).1.filter
        (fun e => e.type == .PAIR_FAILED) =
      if 0 < fleet.failedInstances then [pairFailedEvent fleet now] else [] := by
  rw [checkInstanceHealth_fst]
  simp only [List.filter_append]
  split_ifs <;> simp [degradedEvent, pairFailedEvent]

/-- The only `INSTANCE_DEGRADED` events of a sweep come from
`checkInstanceHealth`. -/
theorem sweep_filter_deg (th : MonitorThresholds) (fleet : FleetStatusResult)
    (s : MonitorState) (now : Nat) :
    (runSweepBody th fleet s now).1.filter (fun e => e.type == .INSTANCE_DEGRADED) =
      (checkInstanceHealth th fleet s.suppressedInstances now).1.filter
        (fun e => e.type == .INSTANCE_DEGRADED) := by
  rw [sweep_events]
  simp only [List.filter_append]
  rw [cost_toList_filter_ne _ _ _ _ (by simp), queue_toList_filter_ne _ _ _ _ (by simp),
    rec_toList_filter_ne _ _ _ _ (by simp), prov_filter_ne _ _ _ _ _ (by simp)]
  simp

/-- The only `PAIR_FAILED` events of a sweep come from `checkInstanceHealth`. -/
theorem sweep_filter_pair (th : MonitorThresholds) (fleet : FleetStatusResult)
    (s : MonitorState) (now : Nat) :
    (runSweepBody th fleet s now).1.filter (fun e => e.type == .PAIR_FAILED) =
      (checkInstanceHealth th fleet s.suppressedInstances now).1.filter
        (fun e => e.type == .PAIR_FAILED) := by
  rw [sweep_events]
  simp only [List.filter_append]
  rw [cost_toList_filter_ne _ _ _ _ (by simp), queue_toList_filter_ne _ _ _ _ (by simp),
    rec_toList_filter_ne _ _ _ _ (by simp), prov_filter_ne _ _ _ _ _ (by simp)]
  simp

/-- The only `COST_ANOMALY` events of a sweep come from `checkCostAnomaly`. -/
theorem sweep_filter_cost (th : MonitorThresholds) (fleet : FleetStatusResult)
    (s : MonitorState) (now : Nat) :
    (runSweepBody th fleet s now).1.filter (fun e => e.type == .COST_ANOMALY) =
      (checkCostAnomaly th fleet now).toList.filter
        (fun e => e.type == .COST_ANOMALY) := by
  rw [sweep_events]
  simp only [List.filter_append]
  rw [inst_filter_ne _ _ _ _ _ (by simp) (by simp), queue_toList_filter_ne _ _ _ _ (by simp),
    rec_toList_filter_ne _ _ _ _ (by simp), prov_filter_ne _ _ _ _ _ (by simp)]
  simp

/-- The only `FLEET_RECOVERING` events of a sweep come from
`checkFleetRecovery`. -/
theorem sweep_filter_rec (th : MonitorThresholds) (fleet : FleetStatusResult)
    (s : MonitorState) (now : Nat) :
    (runSweepBody th fleet s now).1.filter (fun e => e.type == .FLEET_RECOVERING) =
      (checkFleetRecovery s.lastKnownState fleet now).toList.filter
        (fun e => e.type == .FLEET_RECOVERING) := by
  rw [sweep_events]
  simp only [List.filter_append]
  rw [inst_filter_ne _ _ _ _ _ (by simp) (by simp), queue_toList_filter_ne _ _ _ _ (by simp),
    cost_toList_filter_ne _ _ _ _ (by simp), prov_filter_ne _ _ _ _ _ (by simp)]
  simp

/-- The only `PROVIDER_DEGRADED` events of a sweep come from
`checkProviderHealth`. -/
theorem sweep_filter_prov (th : MonitorThresholds) (fleet : FleetStatusResult)
    (s : MonitorState) (now : Nat) :
    (runSweepBody th fleet s now).1.filter (fun e => e.type == .PROVIDER_DEGRADED) =
      (checkProviderHealth th fleet s.suppressedProviders now).1.filter
        (fun e => e.type == .PROVIDER_DEGRADED) := by
  rw [sweep_events]
  simp only [List.filter_append]
  rw [inst_filter_ne _ _ _ _ _ (by simp) (by simp), queue_toList_filter_ne _ _ _ _ (by simp),
    cost_toList_filter_ne _ _ _ _ (by simp), rec_toList_filter_ne _ _ _ _ (by simp)]
  simp

theorem providerLoop_nil (th : MonitorThresholds) (now sm : Nat)
    (m : List (String × Nat)) : providerLoop th now sm [] m = ([], m) := rfl

theorem providerLoop_single (th : MonitorThresholds) (now sm : Nat) (p : String)
    (summary : ProviderSummary) (m : List (String × Nat)) :
    providerLoop th now sm [(p, summary)] m =
      if summary.healthScore < th.providerDegradedScore then
        (if providerNotSuppressed m p now then
          ([providerEvent p summary now sm], mapSet m p (now + sm))
         else ([], m))
      else ([], mapDelete m p) := by
  rw [providerLoop]
  split
  · split <;> rfl
  · rfl

-- ─── Claim theorems ──────────────────────────────────────────────────────────

/-- C3: for every snapshot with `failedInstances > 0` and every monitor state,
the sweep produces exactly one `PAIR_FAILED` event, at priority `critical`,
carrying the failed count and the subset of active critical-severity alerts;
and for every snapshot with `degradedInstances == 0` and
`failedInstances == 0`, no `INSTANCE_DEGRADED` and no `PAIR_FAILED` event is
produced. -/
theorem c3_pair_failed_idempotent_non_suppression (th : MonitorThresholds)
    (fleet : FleetStatusResult) (s : MonitorState) (now : Nat) :
    (0 < fleet.failedInstances →
      (runSweepBody th fleet s now).1.filter (fun e => e.type == .PAIR_FAILED) =
        [pairFailedEvent fleet now] ∧
      (pairFailedEvent fleet now).priority = .critical ∧
      (pairFailedEvent fleet now).payload =
        .pairFailedPayload fleet.failedInstances
          (fleet.alerts.filter (fun a => a.severity == .critical))) ∧
    (fleet.degradedInstances = 0 → fleet.failedInstances = 0 →
      (runSweepBody th fleet s now).1.filter
        (fun e => e.type == .INSTANCE_DEGRADED) = [] ∧
      (runSweepBody th fleet s now).1.filter
        (fun e => e.type == .PAIR_FAILED) = []) := by
  constructor
  · intro h
    refine ⟨?_, rfl, rfl⟩
    rw [sweep_filter_pair, checkInstanceHealth_filter_pair, if_pos h]
  · intro hdeg hfail
    constructor
    · rw [sweep_filter_deg, checkInstanceHealth_filter_deg, if_neg (by omega)]
    · rw [sweep_filter_pair, checkInstanceHealth_filter_pair, if_neg (by omega)]

/-- Witness for C3 at concrete inputs: a snapshot with two failed instances,
and the all-healthy snapshot. -/
theorem c3_pair_failed_idempotent_non_suppression_witness :
    ((runSweepBody DEFAULT_THRESHOLDS failFleet initialState 0).1.filter
        (fun e => e.type == .PAIR_FAILED) = [pairFailedEvent failFleet 0]) ∧
    ((runSweepBody DEFAULT_THRESHOLDS baseFleet initialState 0).1.filter
        (fun e => e.type == .INSTANCE_DEGRADED) = []) ∧
    ((runSweepBody DEFAULT_THRESHOLDS baseFleet initialState 0).1.filter
        (fun e => e.type == .PAIR_FAILED) = []) :=
  ⟨((c3_pair_failed_idempotent_non_suppression DEFAULT_THRESHOLDS failFleet
      initialState 0).1 (by decide)).1,
   ((c3_pair_failed_idempotent_non_suppression DEFAULT_THRESHOLDS baseFleet
      initialState 0).2 (by decide) (by decide)).1,
   ((c3_pair_failed_idempotent_non_suppression DEFAULT_THRESHOLDS baseFleet
      initialState 0).2 (by decide) (by decide)).2⟩

/-- C6: a `COST_ANOMALY` event is produced iff the absolute cost deviation
meets or exceeds the configured ceiling; its priority is `high` iff the
absolute deviation exceeds 25 percentage points, else `medium`; its payload
carries actual USD, projected USD, the signed deviation, and a direction
label that is "over" when the deviation is positive and "under" otherwise;
and the rule neither consults nor modifies the suppression ledger (the
produced `COST_ANOMALY` events do not depend on the ledger state, and both
ledgers after the sweep are exactly what the instance-health and
provider-health checks alone produce). -/
theorem c6_cost_anomaly_rule (th : MonitorThresholds) (fleet : FleetStatusResult)
    (s s' : MonitorState) (now : Nat) :
    ((runSweepBody th fleet s now).1.filter (fun e => e.type == .COST_ANOMALY) =
      (if th.costAnomalyPct ≤ |fleet.cost.deviationPct| then [costEvent fleet now]
       else [])) ∧
    (costEvent fleet now).priority =
      (if 25 < |fleet.cost.deviationPct| then .high else .medium) ∧
    (costEvent fleet now).payload =
      .costPayload fleet.cost.monthlyActualUsd fleet.cost.monthlyProjectedUsd
        fleet.cost.deviationPct
        (if 0 < fleet.cost.deviationPct then "over" else "under") ∧
    ((runSweepBody th fleet s now).1.filter (fun e => e.type == .COST_ANOMALY) =
      (runSweepBody th fleet s' now).1.filter (fun e => e.type == .COST_ANOMALY)) ∧
    (runSweepBody th fleet s now).2.suppressedInstances =
      (checkInstanceHealth th fleet s.suppressedInstances now).2 ∧
    (runSweepBody th fleet s now).2.suppressedProviders =
      (checkProviderHealth th fleet s.suppressedProviders now).2 := by
  have h : ∀ s₀ : MonitorState,
      (runSweepBody th fleet s₀ now).1.filter (fun e => e.type == .COST_ANOMALY) =
        (if th.costAnomalyPct ≤ |fleet.cost.deviationPct| then [costEvent fleet now]
         else []) := by
    intro s₀
    rw [sweep_filter_cost]
    unfold checkCostAnomaly
    split <;> simp [costEvent]
  exact ⟨h s, rfl, rfl, by rw [h s, h s'], rfl, rfl⟩

/-- C7: a failed fleet-status fetch aborts the sweep atomically — no events,
no rule runs, suppression ledgers and last-known snapshot untouched — while a
successful fetch proceeds through the normal sweep body, so the next sweep is
unaffected by an earlier fetch failure. -/
theorem c7_fetch_failure_atomicity (th : MonitorThresholds) (s : MonitorState)
    (now : Nat) (msg : String) (fleet : FleetStatusResult) :
    runSweep th (.error msg) s now = ([], s) ∧
    runSweep th (.ok fleet) s now = runSweepBody th fleet s now :=
  ⟨rfl, rfl⟩

/-- C8: a sweep produces a `FLEET_RECOVERING` event (exactly one, at priority
`low`, targeted at commander, carrying the previous failed and degraded
counts) precisely when a previous snapshot exists, it had failures or
degradation, and the current snapshot has both counts at zero; in particular
none is produced when no previous snapshot exists. -/
theorem c8_fleet_recovery_edge (th : MonitorThresholds) (fleet : FleetStatusResult)
    (s : MonitorState) (now : Nat) :
    ((runSweepBody th fleet s now).1.filter (fun e => e.type == .FLEET_RECOVERING) =
      match s.lastKnownState with
      | none => []
      | some prev =>
        if (0 < prev.failedInstances ∨ 0 < prev.degradedInstances) ∧
            fleet.failedInstances = 0 ∧ fleet.degradedInstances = 0
        then [recoveryEvent prev now] else []) ∧
    ∀ prev : FleetStatusResult,
      (recoveryEvent prev now).priority = .low ∧
      (recoveryEvent prev now).targetAgent = .commander ∧
      (recoveryEvent prev now).payload =
        .recoveryPayload prev.failedInstances prev.degradedInstances := by
  refine ⟨?_, fun prev => ⟨rfl, rfl, rfl⟩⟩
  rw [sweep_filter_rec]
  cases hls : s.lastKnownState with
  | none => simp [checkFleetRecovery]
  | some prev =>
    simp only [checkFleetRecovery]
    split <;> simp [recoveryEvent]

/-- C9: the dispatcher resolves an event's target through the static lookup;
`forge` — the on-demand consumer — resolves to no address, and any event
whose target resolves to no address is dropped without a delivery attempt
(the total function `emitEvent` returns the drop outcome; it never throws). -/
theorem c9_dispatcher_no_address_drop (cfg : ClawOpsConfig)
    (post : String → Bool) (e : MonitorEvent) :
    getSessionId cfg .forge = none ∧
    (getSessionId cfg e.targetAgent = none →
      emitEvent cfg post e = .droppedNoSession) ∧
    (e.targetAgent = .forge → emitEvent cfg post e = .droppedNoSession) := by
  refine ⟨rfl, fun h => ?_, fun h => ?_⟩
  · unfold emitEvent
    rw [h]
  · unfold emitEvent
    rw [h]
    rfl

/-- A configuration with all three static session ids present. -/
def sampleConfig : ClawOpsConfig :=
  { guardianSessionId := some "sess-g"
    ledgerSessionId := some "sess-l"
    commanderSessionId := some "sess-c" }

/-- A configuration with no session ids configured. -/
def emptyConfig : ClawOpsConfig :=
  { guardianSessionId := none, ledgerSessionId := none, commanderSessionId := none }

/-- Witness for C9: a forge-targeted event is dropped even with every static
session configured, and a guardian-targeted event is dropped when its lookup
yields no address. -/
theorem c9_dispatcher_no_address_drop_witness :
    emitEvent sampleConfig (fun _ => true) (queueEvent queueFleet25 0) =
      .droppedNoSession ∧
    emitEvent emptyConfig (fun _ => true) (pairFailedEvent failFleet 0) =
      .droppedNoSession :=
  ⟨(c9_dispatcher_no_address_drop sampleConfig (fun _ => true)
      (queueEvent queueFleet25 0)).2.2 rfl,
   (c9_dispatcher_no_address_drop emptyConfig (fun _ => true)
      (pairFailedEvent failFleet 0)).2.1 rfl⟩

/-- C10: every event produced by a sweep has one of the six live types —
`INSTANCE_FAILED` and `FLEET_HEALTHY` are never produced — and its target is
fixed by its type: `INSTANCE_DEGRADED` and `PAIR_FAILED` go to guardian,
`COST_ANOMALY` to ledger, `PROVISION_QUEUE_BACKLOG` to forge,
`PROVIDER_DEGRADED` and `FLEET_RECOVERING` to commander. -/
theorem c10_event_types_and_targets (th : MonitorThresholds)
    (fleet : FleetStatusResult) (s : MonitorState) (now : Nat) (e : MonitorEvent)
    (h : e ∈ (runSweepBody th fleet s now).1) :
    (e.type ≠ .INSTANCE_FAILED ∧ e.type ≠ .FLEET_HEALTHY) ∧
    (e.type = .INSTANCE_DEGRADED → e.targetAgent = .guardian) ∧
    (e.type = .PAIR_FAILED → e.targetAgent = .guardian) ∧
    (e.type = .COST_ANOMALY → e.targetAgent = .ledger) ∧
    (e.type = .PROVISION_QUEUE_BACKLOG → e.targetAgent = .forge) ∧
    (e.type = .PROVIDER_DEGRADED → e.targetAgent = .commander) ∧
    (e.type = .FLEET_RECOVERING → e.targetAgent = .commander) := by
  rw [sweep_events] at h
  simp only [List.append_assoc, List.mem_append] at h
  rcases h with h | h | h | h | h
  · rcases checkInstanceHealth_mem _ _ _ _ e h with he | he <;> subst he <;>
      simp [degradedEvent, pairFailedEvent]
  · rw [checkCostAnomaly_mem _ _ _ e h]
    simp [costEvent]
  · rw [checkProvisionQueue_mem _ _ _ e h]
    simp [queueEvent]
  · obtain ⟨p, summary, _, he⟩ := checkProviderHealth_mem _ _ _ _ e h
    subst he
    simp [providerEvent]
  · obtain ⟨prev, _, he⟩ := checkFleetRecovery_mem _ _ _ e h
    subst he
    simp [recoveryEvent]

/-- Witness for C10: the `PAIR_FAILED` event of a concrete sweep goes to
guardian. -/
theorem c10_event_types_and_targets_witness :
    (pairFailedEvent failFleet 0).targetAgent = .guardian :=
  (c10_event_types_and_targets DEFAULT_THRESHOLDS failFleet initialState 0
    (pairFailedEvent failFleet 0) (by decide)).2.2.1 rfl

/-- C4: starting from an empty ledger, a sweep at `t0` with
`degradedInstances > 0` emits the `INSTANCE_DEGRADED` event and sets the
aggregate key's expiry to `t0` plus the configured suppression window; a
second sweep with the same condition at `t1` within that window emits no
`INSTANCE_DEGRADED` event; a third sweep with the same condition at `t2`
after the window has elapsed re-emits. -/
theorem c4_degraded_debounce (th : MonitorThresholds) (fleet : FleetStatusResult)
    (t0 t1 t2 : Nat)
    (hdeg : 0 < fleet.degradedInstances)
    (h1 : t1 ≤ t0 + th.degradedSuppressionMins * 60000)
    (h2 : t0 + th.degradedSuppressionMins * 60000 < t2) :
    ((runSweepBody th fleet initialState t0).1.filter
        (fun e => e.type == .INSTANCE_DEGRADED) = [degradedEvent th fleet t0]) ∧
    (mapGet (runSweepBody th fleet initialState t0).2.suppressedInstances
        "fleet-degraded" = some (t0 + th.degradedSuppressionMins * 60000)) ∧
    ((runSweepBody th fleet (runSweepBody th fleet initialState t0).2 t1).1.filter
        (fun e => e.type == .INSTANCE_DEGRADED) = []) ∧
    ((runSweepBody th fleet
        (runSweepBody th fleet (runSweepBody th fleet initialState t0).2 t1).2
        t2).1.filter
        (fun e => e.type == .INSTANCE_DEGRADED) = [degradedEvent th fleet t2]) := by
  have hkey : mapGet [("fleet-degraded", t0 + th.degradedSuppressionMins * 60000)]
      "fleet-degraded" = some (t0 + th.degradedSuppressionMins * 60000) := by
    simp [mapGet]
  have hns0a : degradedNotSuppressed initialState.suppressedInstances t0 = true := rfl
  have hs1 : (runSweepBody th fleet initialState t0).2.suppressedInstances =
      [("fleet-degraded", t0 + th.degradedSuppressionMins * 60000)] := by
    show (checkInstanceHealth th fleet initialState.suppressedInstances t0).2 = _
    rw [checkInstanceHealth_snd, if_pos hdeg, if_pos hns0a]
    rfl
  have hns1 : degradedNotSuppressed
      [("fleet-degraded", t0 + th.degradedSuppressionMins * 60000)] t1 = false := by
    unfold degradedNotSuppressed
    rw [hkey]
    exact decide_eq_false (Nat.not_lt.mpr h1)
  have hns2 : degradedNotSuppressed
      [("fleet-degraded", t0 + th.degradedSuppressionMins * 60000)] t2 = true := by
    unfold degradedNotSuppressed
    rw [hkey]
    exact decide_eq_true h2
  have hs2 : (runSweepBody th fleet (runSweepBody th fleet initialState t0).2
      t1).2.suppressedInstances =
      [("fleet-degraded", t0 + th.degradedSuppressionMins * 60000)] := by
    show (checkInstanceHealth th fleet
      (runSweepBody th fleet initialState t0).2.suppressedInstances t1).2 = _
    rw [hs1, checkInstanceHealth_snd, if_pos hdeg, hns1]
    simp
  refine ⟨?_, ?_, ?_, ?_⟩
  · rw [sweep_filter_deg]
    show (checkInstanceHealth th fleet initialState.suppressedInstances t0).1.filter
      (fun e => e.type == .INSTANCE_DEGRADED) = _
    rw [checkInstanceHealth_filter_deg, if_pos hdeg, if_pos hns0a]
  · rw [hs1]
    exact hkey
  · rw [sweep_filter_deg, hs1, checkInstanceHealth_filter_deg, if_pos hdeg, hns1]
    simp
  · rw [sweep_filter_deg, hs2, checkInstanceHealth_filter_deg, if_pos hdeg, hns2]
    simp

/-- Witness for C4 with the default thresholds (30-minute window), three
degraded instances, and sweeps at 0 ms, 1,000,000 ms (inside the window) and
1,800,001 ms (past the window). -/
theorem c4_degraded_debounce_witness :
    ((runSweepBody DEFAULT_THRESHOLDS degFleet3 initialState 0).1.filter
        (fun e => e.type == .INSTANCE_DEGRADED) =
      [degradedEvent DEFAULT_THRESHOLDS degFleet3 0]) ∧
    (mapGet (runSweepBody DEFAULT_THRESHOLDS degFleet3 initialState 0).2.suppressedInstances
        "fleet-degraded" = some (0 + DEFAULT_THRESHOLDS.degradedSuppressionMins * 60000)) ∧
    ((runSweepBody DEFAULT_THRESHOLDS degFleet3
        (runSweepBody DEFAULT_THRESHOLDS degFleet3 initialState 0).2 1000000).1.filter
        (fun e => e.type == .INSTANCE_DEGRADED) = []) ∧
    ((runSweepBody DEFAULT_THRESHOLDS degFleet3
        (runSweepBody DEFAULT_THRESHOLDS degFleet3
          (runSweepBody DEFAULT_THRESHOLDS degFleet3 initialState 0).2 1000000).2
        1800001).1.filter
        (fun e => e.type == .INSTANCE_DEGRADED) =
      [degradedEvent DEFAULT_THRESHOLDS degFleet3 1800001]) :=
  c4_degraded_debounce DEFAULT_THRESHOLDS degFleet3 0 1000000 1800001
    (by decide) (by decide) (by decide)

/-- C1 (as written) is false on the code; this is the lifecycle the code
actually implements. For both keyed stores an entry is created on the first
threshold breach (key absent) with expiry now + window; while the entry is
unexpired, a repeated breach leaves the ledger untouched (the expiry is NOT
refreshed); once the entry has expired, a repeated breach re-emits and sets a
fresh expiry. A provider entry is deleted on any sweep in which that
provider's score is at or above the floor; the aggregate `'fleet-degraded'`
entry, however, is never deleted — a sweep with `degradedInstances == 0`
leaves the `suppressedInstances` ledger exactly as it was. -/
theorem c1_suppression_ledger_lifecycle (th : MonitorThresholds)
    (fleet : FleetStatusResult) (m : List (String × Nat)) (now u : Nat)
    (p : String) (summary : ProviderSummary) :
    (0 < fleet.degradedInstances → mapGet m "fleet-degraded" = none →
      (checkInstanceHealth th fleet m now).2 =
        mapSet m "fleet-degraded" (now + th.degradedSuppressionMins * 60000)) ∧
    (mapGet m "fleet-degraded" = some u → now ≤ u →
      (checkInstanceHealth th fleet m now).2 = m) ∧
    (0 < fleet.degradedInstances → mapGet m "fleet-degraded" = some u → u < now →
      (checkInstanceHealth th fleet m now).2 =
        mapSet m "fleet-degraded" (now + th.degradedSuppressionMins * 60000)) ∧
    (fleet.degradedInstances = 0 → (checkInstanceHealth th fleet m now).2 = m) ∧
    (fleet.byProvider = [(p, summary)] →
      summary.healthScore < th.providerDegradedScore → mapGet m p = none →
      (checkProviderHealth th fleet m now).2 = mapSet m p (now + 60 * 60000)) ∧
    (fleet.byProvider = [(p, summary)] →
      summary.healthScore < th.providerDegradedScore → mapGet m p = some u →
      now ≤ u → (checkProviderHealth th fleet m now).2 = m) ∧
    (fleet.byProvider = [(p, summary)] →
      summary.healthScore < th.providerDegradedScore → mapGet m p = some u →
      u < now → (checkProviderHealth th fleet m now).2 =
        mapSet m p (now + 60 * 60000)) ∧
    (fleet.byProvider = [(p, summary)] →
      th.providerDegradedScore ≤ summary.healthScore →
      (checkProviderHealth th fleet m now).2 = mapDelete m p) := by
  refine ⟨?_, ?_, ?_, ?_, ?_, ?_, ?_, ?_⟩
  · intro hdeg hnone
    have hns : degradedNotSuppressed m now = true := by
      unfold degradedNotSuppressed
      rw [hnone]
    rw [checkInstanceHealth_snd, if_pos hdeg, if_pos hns]
  · intro hsome hle
    have hns : degradedNotSuppressed m now = false := by
      unfold degradedNotSuppressed
      rw [hsome]
      exact decide_eq_false (Nat.not_lt.mpr hle)
    rw [checkInstanceHealth_snd, hns]
    simp
  · intro hdeg hsome hlt
    have hns : degradedNotSuppressed m now = true := by
      unfold degradedNotSuppressed
      rw [hsome]
      exact decide_eq_true hlt
    rw [checkInstanceHealth_snd, if_pos hdeg, if_pos hns]
  · intro h0
    rw [checkInstanceHealth_snd, if_neg (by omega)]
  · intro hbp hscore hnone
    have hns : providerNotSuppressed m p now = true := by
      unfold providerNotSuppressed
      rw [hnone]
    unfold checkProviderHealth
    rw [hbp, providerLoop_single, if_pos hscore, if_pos hns]
  · intro hbp hscore hsome hle
    have hns : providerNotSuppressed m p now = false := by
      unfold providerNotSuppressed
      rw [hsome]
      exact decide_eq_false (Nat.not_lt.mpr hle)
    unfold checkProviderHealth
    rw [hbp, providerLoop_single, if_pos hscore, hns]
    simp
  · intro hbp hscore hsome hlt
    have hns : providerNotSuppressed m p now = true := by
      unfold providerNotSuppressed
      rw [hsome]
      exact decide_eq_true hlt
    unfold checkProviderHealth
    rw [hbp, providerLoop_single, if_pos hscore, if_pos hns]
  · intro hbp hge
    unfold checkProviderHealth
    rw [hbp, providerLoop_single, if_neg (not_lt.mpr hge)]

/-- Witness for C1's amended lifecycle, exercising every branch at concrete
inputs: creation, no-refresh while suppressed, refresh after expiry, and
no-deletion-on-clear for the aggregate key; creation, no-refresh, refresh
and deletion-on-recovery for a provider key. -/
theorem c1_suppression_ledger_lifecycle_witness :
    ((checkInstanceHealth DEFAULT_THRESHOLDS degFleet3 [] 0).2 =
      mapSet [] "fleet-degraded" (0 + DEFAULT_THRESHOLDS.degradedSuppressionMins * 60000)) ∧
    ((checkInstanceHealth DEFAULT_THRESHOLDS degFleet3
      [("fleet-degraded", 500)] 400).2 = [("fleet-degraded", 500)]) ∧
    ((checkInstanceHealth DEFAULT_THRESHOLDS degFleet3
      [("fleet-degraded", 500)] 600).2 =
      mapSet [("fleet-degraded", 500)] "fleet-degraded"
        (600 + DEFAULT_THRESHOLDS.degradedSuppressionMins * 60000)) ∧
    ((checkInstanceHealth DEFAULT_THRESHOLDS baseFleet
      [("fleet-degraded", 500)] 600).2 = [("fleet-degraded", 500)]) ∧
    ((checkProviderHealth DEFAULT_THRESHOLDS (provFleet "hetzner" 60) [] 0).2 =
      mapSet [] "hetzner" (0 + 60 * 60000)) ∧
    ((checkProviderHealth DEFAULT_THRESHOLDS (provFleet "hetzner" 60)
      [("hetzner", 500)] 400).2 = [("hetzner", 500)]) ∧
    ((checkProviderHealth DEFAULT_THRESHOLDS (provFleet "hetzner" 60)
      [("hetzner", 500)] 600).2 =
      mapSet [("hetzner", 500)] "hetzner" (600 + 60 * 60000)) ∧
    ((checkProviderHealth DEFAULT_THRESHOLDS (provFleet "hetzner" 80)
      [("hetzner", 500)] 600).2 = mapDelete [("hetzner", 500)] "hetzner") :=
  ⟨(c1_suppression_ledger_lifecycle DEFAULT_THRESHOLDS degFleet3 [] 0 0
      "hetzner" (provSummary 60)).1 (by decide) (by decide),
   (c1_suppression_ledger_lifecycle DEFAULT_THRESHOLDS degFleet3
      [("fleet-degraded", 500)] 400 500 "hetzner" (provSummary 60)).2.1
      (by decide) (by decide),
   (c1_suppression_ledger_lifecycle DEFAULT_THRESHOLDS degFleet3
      [("fleet-degraded", 500)] 600 500 "hetzner" (provSummary 60)).2.2.1
      (by decide) (by decide) (by decide),
   (c1_suppression_ledger_lifecycle DEFAULT_THRESHOLDS baseFleet
      [("fleet-degraded", 500)] 600 500 "hetzner" (provSummary 60)).2.2.2.1
      (by decide),
   (c1_suppression_ledger_lifecycle DEFAULT_THRESHOLDS (provFleet "hetzner" 60)
      [] 0 0 "hetzner" (provSummary 60)).2.2.2.2.1 (by decide) (by decide)
      (by decide),
   (c1_suppression_ledger_lifecycle DEFAULT_THRESHOLDS (provFleet "hetzner" 60)
      [("hetzner", 500)] 400 500 "hetzner" (provSummary 60)).2.2.2.2.2.1
      (by decide) (by decide) (by decide) (by decide),
   (c1_suppression_ledger_lifecycle DEFAULT_THRESHOLDS (provFleet "hetzner" 60)
      [("hetzner", 500)] 600 500 "hetzner" (provSummary 60)).2.2.2.2.2.2.1
      (by decide) (by decide) (by decide) (by decide),
   (c1_suppression_ledger_lifecycle DEFAULT_THRESHOLDS (provFleet "hetzner" 80)
      [("hetzner", 500)] 600 500 "hetzner" (provSummary 80)).2.2.2.2.2.2.2
      (by decide) (by decide)⟩

/-- Counterexample to C1 as stated. After a breach at t = 0 (default
thresholds: window 1,800,000 ms) the aggregate entry expires at 1,800,000.
The claim says a repeated breach at t = 60,000, still inside the window,
refreshes the expiry (to 1,860,000), and that a sweep at t = 120,000 with
`degradedInstances == 0` deletes the entry; the code does neither — the
entry keeps its original expiry in the first case and survives, unexpired,
in the second. -/
theorem c1_suppression_ledger_lifecycle_counterexample :
    (mapGet ((runSweepBody DEFAULT_THRESHOLDS degFleet3
        ((runSweepBody DEFAULT_THRESHOLDS degFleet3 initialState 0).2)
        60000).2).suppressedInstances "fleet-degraded" = some 1800000 ∧
      mapGet ((runSweepBody DEFAULT_THRESHOLDS degFleet3
        ((runSweepBody DEFAULT_THRESHOLDS degFleet3 initialState 0).2)
        60000).2).suppressedInstances "fleet-degraded" ≠ some (60000 + 1800000)) ∧
    (mapGet ((runSweepBody DEFAULT_THRESHOLDS baseFleet
        ((runSweepBody DEFAULT_THRESHOLDS degFleet3 initialState 0).2)
        120000).2).suppressedInstances "fleet-degraded" = some 1800000 ∧
      mapGet ((runSweepBody DEFAULT_THRESHOLDS baseFleet
        ((runSweepBody DEFAULT_THRESHOLDS degFleet3 initialState 0).2)
        120000).2).suppressedInstances "fleet-degraded" ≠ none) := by
  decide

/-- C2 is the intended behaviour but not what the code does: `runSweep`
invokes the five checks in a straight line with no per-check try/catch, so an
exception inside the first check aborts the whole sweep body and the
remaining four checks never run. Concretely: on a snapshot with 25
bootstrapping instances a normal sweep produces the
`PROVISION_QUEUE_BACKLOG` event, but if `checkInstanceHealth` throws, the
sweep ends in the error and produces no events at all — the queue check's
event is lost. -/
theorem c2_rule_exception_aborts_remaining_checks :
    runSweepBodyExc (some 0) DEFAULT_THRESHOLDS queueFleet25 initialState 0 =
      .error "rule evaluation threw" ∧
    (runSweepBody DEFAULT_THRESHOLDS queueFleet25 initialState 0).1 =
      [queueEvent queueFleet25 0] :=
  ⟨rfl, by decide⟩

-- ─── C5 machinery ────────────────────────────────────────────────────────────

theorem checkInstanceHealth_healthy (th : MonitorThresholds)
    (fleet : FleetStatusResult) (m : List (String × Nat)) (now : Nat)
    (hdeg : fleet.degradedInstances = 0) (hfail : fleet.failedInstances = 0) :
    checkInstanceHealth th fleet m now = ([], m) := by
  have h1 := checkInstanceHealth_fst th fleet m now
  have h2 := checkInstanceHealth_snd th fleet m now
  rw [hdeg, hfail] at h1
  rw [hdeg] at h2
  simp at h1 h2
  exact Prod.ext h1 h2

theorem checkFleetRecovery_healthy_prev (prev fleet : FleetStatusResult)
    (now : Nat) (h1 : prev.failedInstances = 0) (h2 : prev.degradedInstances = 0) :
    checkFleetRecovery (some prev) fleet now = none := by
  simp [checkFleetRecovery, h1, h2]

/-- A sweep on a snapshot that is quiet for every rule except the provider
check reduces to the provider check alone. -/
theorem runSweepBody_provider_only (th : MonitorThresholds)
    (fleet : FleetStatusResult) (s : MonitorState) (now : Nat)
    (hdeg : fleet.degradedInstances = 0) (hfail : fleet.failedInstances = 0)
    (hboot : fleet.bootstrappingInstances < th.provisionQueueDepth)
    (hcost : |fleet.cost.deviationPct| < th.costAnomalyPct)
    (hrec : checkFleetRecovery s.lastKnownState fleet now = none) :
    runSweepBody th fleet s now =
      ((checkProviderHealth th fleet s.suppressedProviders now).1,
       { suppressedInstances := s.suppressedInstances
         suppressedProviders := (checkProviderHealth th fleet s.suppressedProviders now).2
         lastKnownState := some fleet }) := by
  have hcost0 : checkCostAnomaly th fleet now = none := by
    unfold checkCostAnomaly
    rw [if_neg (not_le.mpr hcost)]
  have hboot0 : checkProvisionQueue th fleet now = none := by
    unfold checkProvisionQueue
    rw [if_neg (not_le.mpr hboot)]
  have hinst := checkInstanceHealth_healthy th fleet s.suppressedInstances now hdeg hfail
  apply Prod.ext
  · rw [sweep_events, hinst, hcost0, hboot0, hrec]
    simp
  · rw [sweep_state, hinst]

/-- Monitor state after the first C5 sweep (provider at score 80, fresh
monitor). -/
def c5s1 (p : String) (t0 : Nat) : MonitorState :=
  (runSweepBody DEFAULT_THRESHOLDS (provFleet p 80) initialState t0).2

/-- Monitor state after the second C5 sweep (provider degraded to 60). -/
def c5s2 (p : String) (t0 t1 : Nat) : MonitorState :=
  (runSweepBody DEFAULT_THRESHOLDS (provFleet p 60) (c5s1 p t0) t1).2

/-- Monitor state after the third C5 sweep (still 60, inside the window). -/
def c5s3 (p : String) (t0 t1 t2 : Nat) : MonitorState :=
  (runSweepBody DEFAULT_THRESHOLDS (provFleet p 60) (c5s2 p t0 t1) t2).2

/-- Monitor state after the fourth C5 sweep (provider recovered to 80). -/
def c5s4 (p : String) (t0 t1 t2 t3 : Nat) : MonitorState :=
  (runSweepBody DEFAULT_THRESHOLDS (provFleet p 80) (c5s3 p t0 t1 t2) t3).2

/-- C5: with the default provider floor of 75, a provider whose score goes
from 80 to 60 emits exactly one `PROVIDER_DEGRADED` event, at priority `high`
(60 is not below 50), with a one-hour suppression expiry recorded for the
provider; a further sweep at 60 within that hour emits nothing; a sweep at 80
deletes the provider's ledger entry; and a later sweep back at 60 emits a new
`PROVIDER_DEGRADED` event. -/
theorem c5_provider_degradation_trace (p : String) (t0 t1 t2 t3 t4 : Nat)
    (h2 : t2 ≤ t1 + 60 * 60000) :
    ((runSweepBody DEFAULT_THRESHOLDS (provFleet p 80) initialState t0).1 = []) ∧
    ((runSweepBody DEFAULT_THRESHOLDS (provFleet p 60) (c5s1 p t0) t1).1 =
      [providerEvent p (provSummary 60) t1 (60 * 60000)]) ∧
    ((providerEvent p (provSummary 60) t1 (60 * 60000)).type = .PROVIDER_DEGRADED) ∧
    ((providerEvent p (provSummary 60) t1 (60 * 60000)).priority = .high) ∧
    ((providerEvent p (provSummary 60) t1 (60 * 60000)).suppressUntil =
      some (t1 + 60 * 60000)) ∧
    (mapGet (c5s2 p t0 t1).suppressedProviders p = some (t1 + 60 * 60000)) ∧
    ((runSweepBody DEFAULT_THRESHOLDS (provFleet p 60) (c5s2 p t0 t1) t2).1 = []) ∧
    ((runSweepBody DEFAULT_THRESHOLDS (provFleet p 80) (c5s3 p t0 t1 t2) t3).1 = []) ∧
    (mapGet (c5s4 p t0 t1 t2 t3).suppressedProviders p = none) ∧
    ((runSweepBody DEFAULT_THRESHOLDS (provFleet p 60) (c5s4 p t0 t1 t2 t3) t4).1 =
      [providerEvent p (provSummary 60) t4 (60 * 60000)]) := by
  have hbp60 : (provFleet p 60).byProvider = [(p, provSummary 60)] := rfl
  have hbp80 : (provFleet p 80).byProvider = [(p, provSummary 80)] := rfl
  have hget : mapGet [(p, t1 + 60 * 60000)] p = some (t1 + 60 * 60000) := by
    simp [mapGet]
  have hdel : mapDelete [(p, t1 + 60 * 60000)] p = [] := by
    simp [mapDelete]
  have hcph0 : checkProviderHealth DEFAULT_THRESHOLDS (provFleet p 80) [] t0 =
      ([], []) := by
    unfold checkProviderHealth
    rw [hbp80, providerLoop_single, if_neg (by decide)]
    rfl
  have hns1 : providerNotSuppressed [] p t1 = true := rfl
  have hcph1 : checkProviderHealth DEFAULT_THRESHOLDS (provFleet p 60) [] t1 =
      ([providerEvent p (provSummary 60) t1 (60 * 60000)],
       [(p, t1 + 60 * 60000)]) := by
    unfold checkProviderHealth
    rw [hbp60, providerLoop_single, if_pos (by decide), if_pos hns1]
    rfl
  have hns2 : providerNotSuppressed [(p, t1 + 60 * 60000)] p t2 = false := by
    unfold providerNotSuppressed
    rw [hget]
    exact decide_eq_false (Nat.not_lt.mpr h2)
  have hcph2 : checkProviderHealth DEFAULT_THRESHOLDS (provFleet p 60)
      [(p, t1 + 60 * 60000)] t2 = ([], [(p, t1 + 60 * 60000)]) := by
    unfold checkProviderHealth
    rw [hbp60, providerLoop_single, if_pos (by decide), hns2]
    simp
  have hcph3 : checkProviderHealth DEFAULT_THRESHOLDS (provFleet p 80)
      [(p, t1 + 60 * 60000)] t3 = ([], []) := by
    unfold checkProviderHealth
    rw [hbp80, providerLoop_single, if_neg (by decide), hdel]
  have hns4 : providerNotSuppressed [] p t4 = true := rfl
  have hcph4 : checkProviderHealth DEFAULT_THRESHOLDS (provFleet p 60) [] t4 =
      ([providerEvent p (provSummary 60) t4 (60 * 60000)],
       [(p, t4 + 60 * 60000)]) := by
    unfold checkProviderHealth
    rw [hbp60, providerLoop_single, if_pos (by decide), if_pos hns4]
    rfl
  have hsw0 := runSweepBody_provider_only DEFAULT_THRESHOLDS (provFleet p 80)
    initialState t0 rfl rfl (by norm_num [provFleet, baseFleet, DEFAULT_THRESHOLDS])
    (by norm_num [provFleet, baseFleet, DEFAULT_THRESHOLDS]) rfl
  have hs1 : c5s1 p t0 =
      { suppressedInstances := []
        suppressedProviders := []
        lastKnownState := some (provFleet p 80) } := by
    unfold c5s1
    rw [hsw0]
    show ({ suppressedInstances := initialState.suppressedInstances
            suppressedProviders := (checkProviderHealth DEFAULT_THRESHOLDS
              (provFleet p 80) initialState.suppressedProviders t0).2
            lastKnownState := some (provFleet p 80) } : MonitorState) = _
    rw [show initialState.suppressedProviders = ([] : List (String × Nat)) from rfl,
      hcph0]
    rfl
  have hsw1 := runSweepBody_provider_only DEFAULT_THRESHOLDS (provFleet p 60)
    (c5s1 p t0) t1 rfl rfl (by norm_num [provFleet, baseFleet, DEFAULT_THRESHOLDS])
    (by norm_num [provFleet, baseFleet, DEFAULT_THRESHOLDS])
    (by rw [show (c5s1 p t0).lastKnownState = some (provFleet p 80) by rw [hs1]]
        exact checkFleetRecovery_healthy_prev _ _ _ rfl rfl)
  have hs1p : (c5s1 p t0).suppressedProviders = [] := by rw [hs1]
  have hs2 : c5s2 p t0 t1 =
      { suppressedInstances := (c5s1 p t0).suppressedInstances
        suppressedProviders := [(p, t1 + 60 * 60000)]
        lastKnownState := some (provFleet p 60) } := by
    unfold c5s2
    rw [hsw1, hs1p, hcph1]
  have hsw2 := runSweepBody_provider_only DEFAULT_THRESHOLDS (provFleet p 60)
    (c5s2 p t0 t1) t2 rfl rfl (by norm_num [provFleet, baseFleet, DEFAULT_THRESHOLDS])
    (by norm_num [provFleet, baseFleet, DEFAULT_THRESHOLDS])
    (by rw [show (c5s2 p t0 t1).lastKnownState = some (provFleet p 60) by rw [hs2]]
        exact checkFleetRecovery_healthy_prev _ _ _ rfl rfl)
  have hs2p : (c5s2 p t0 t1).suppressedProviders = [(p, t1 + 60 * 60000)] := by
    rw [hs2]
  have hs3 : c5s3 p t0 t1 t2 =
      { suppressedInstances := (c5s2 p t0 t1).suppressedInstances
        suppressedProviders := [(p, t1 + 60 * 60000)]
        lastKnownState := some (provFleet p 60) } := by
    unfold c5s3
    rw [hsw2, hs2p, hcph2]
  have hsw3 := runSweepBody_provider_only DEFAULT_THRESHOLDS (provFleet p 80)
    (c5s3 p t0 t1 t2) t3 rfl rfl (by norm_num [provFleet, baseFleet, DEFAULT_THRESHOLDS])
    (by norm_num [provFleet, baseFleet, DEFAULT_THRESHOLDS])
    (by rw [show (c5s3 p t0 t1 t2).lastKnownState = some (provFleet p 60) by rw [hs3]]
        exact checkFleetRecovery_healthy_prev _ _ _ rfl rfl)
  have hs3p : (c5s3 p t0 t1 t2).suppressedProviders = [(p, t1 + 60 * 60000)] := by
    rw [hs3]
  have hs4 : c5s4 p t0 t1 t2 t3 =
      { suppressedInstances := (c5s3 p t0 t1 t2).suppressedInstances
        suppressedProviders := []
        lastKnownState := some (provFleet p 80) } := by
    unfold c5s4
    rw [hsw3, hs3p, hcph3]
  have hsw4 := runSweepBody_provider_only DEFAULT_THRESHOLDS (provFleet p 60)
    (c5s4 p t0 t1 t2 t3) t4 rfl rfl (by norm_num [provFleet, baseFleet, DEFAULT_THRESHOLDS])
    (by norm_num [provFleet, baseFleet, DEFAULT_THRESHOLDS])
    (by rw [show (c5s4 p t0 t1 t2 t3).lastKnownState = some (provFleet p 80) by rw [hs4]]
        exact checkFleetRecovery_healthy_prev _ _ _ rfl rfl)
  have hs4p : (c5s4 p t0 t1 t2 t3).suppressedProviders = [] := by rw [hs4]
  refine ⟨?_, ?_, rfl, rfl, rfl, ?_, ?_, ?_, ?_, ?_⟩
  · rw [hsw0]
    show (checkProviderHealth DEFAULT_THRESHOLDS (provFleet p 80)
      initialState.suppressedProviders t0).1 = []
    rw [show initialState.suppressedProviders = ([] : List (String × Nat)) from rfl,
      hcph0]
  · rw [hsw1]
    show (checkProviderHealth DEFAULT_THRESHOLDS (provFleet p 60)
      (c5s1 p t0).suppressedProviders t1).1 = _
    rw [hs1p, hcph1]
  · rw [hs2p]
    exact hget
  · rw [hsw2]
    show (checkProviderHealth DEFAULT_THRESHOLDS (provFleet p 60)
      (c5s2 p t0 t1).suppressedProviders t2).1 = []
    rw [hs2p, hcph2]
  · rw [hsw3]
    show (checkProviderHealth DEFAULT_THRESHOLDS (provFleet p 80)
      (c5s3 p t0 t1 t2).suppressedProviders t3).1 = []
    rw [hs3p, hcph3]
  · rw [hs4p]
    rfl
  · rw [hsw4]
    show (checkProviderHealth DEFAULT_THRESHOLDS (provFleet p 60)
      (c5s4 p t0 t1 t2 t3).suppressedProviders t4).1 = _
    rw [hs4p, hcph4]

/-- Witness for C5 with provider "hetzner" and sweep times 0, 10, 20, 30, 40
(the third sweep, at 20 ms, is well inside the one-hour window opened at
10 ms). -/
theorem c5_provider_degradation_trace_witness :
    ((runSweepBody DEFAULT_THRESHOLDS (provFleet "hetzner" 80) initialState 0).1 = []) ∧
    ((runSweepBody DEFAULT_THRESHOLDS (provFleet "hetzner" 60) (c5s1 "hetzner" 0) 10).1 =
      [providerEvent "hetzner" (provSummary 60) 10 (60 * 60000)]) ∧
    ((providerEvent "hetzner" (provSummary 60) 10 (60 * 60000)).type = .PROVIDER_DEGRADED) ∧
    ((providerEvent "hetzner" (provSummary 60) 10 (60 * 60000)).priority = .high) ∧
    ((providerEvent "hetzner" (provSummary 60) 10 (60 * 60000)).suppressUntil =
      some (10 + 60 * 60000)) ∧
    (mapGet (c5s2 "hetzner" 0 10).suppressedProviders "hetzner" = some (10 + 60 * 60000)) ∧
    ((runSweepBody DEFAULT_THRESHOLDS (provFleet "hetzner" 60) (c5s2 "hetzner" 0 10) 20).1 = []) ∧
    ((runSweepBody DEFAULT_THRESHOLDS (provFleet "hetzner" 80) (c5s3 "hetzner" 0 10 20) 30).1 = []) ∧
    (mapGet (c5s4 "hetzner" 0 10 20 30).suppressedProviders "hetzner" = none) ∧
    ((runSweepBody DEFAULT_THRESHOLDS (provFleet "hetzner" 60) (c5s4 "hetzner" 0 10 20 30) 40).1 =
      [providerEvent "hetzner" (provSummary 60) 40 (60 * 60000)]) :=
  c5_provider_degradation_trace "hetzner" 0 10 20 30 40 (by decide)

end ClawOps
